import Mathlib

/-!
Verification development for the tool-augmented query orchestrator of the
course-materials RAG chatbot.  The definitions in the `Rag` namespace are a
shallow embedding of `backend/ai_generator.py` (class `AIGenerator`:
`__init__`, `generate_response`, `_handle_tool_execution`); the
`Rag.Search` namespace models the content-search tool
(`backend/search_tools.py` / `backend/vector_store.py`), whose sources are
not in the tree, from the specification.  The language-model client is a
parameter: an arbitrary function from (invocation index, request
parameters) to a response, so theorems quantify over every possible model
behaviour.  Instrumented results record the full list of requests issued
and the batches of tool calls executed, so invocation counts and transcript
contents are provable properties.
-/

namespace Rag

/-- A tool-result entry, mirroring the dict built at
`ai_generator.py` lines 140-144: keys `type` (always the string
`tool_result`), `tool_use_id`, `content`. -/
structure ToolResult where
  type : String
  tool_use_id : String
  content : String
deriving Repr, DecidableEq

/-- A content block of a model response: either a text block (field
`text`) or a tool-use block (fields `name`, `input`, `id`).  The Python
code distinguishes them by `content_block.type`. -/
inductive ContentBlock where
  | text (t : String)
  | tool_use (name : String) (input : List (String × String)) (id : String)
deriving Repr, DecidableEq

/-- The `type` attribute of a content block. -/
def ContentBlock.type : ContentBlock → String
  | .text _ => "text"
  | .tool_use _ _ _ => "tool_use"

/-- Reading the `text` attribute of a content block.  In Python this is an
attribute access that raises `AttributeError` on a tool-use block, hence
`Option`. -/
def ContentBlock.getText : ContentBlock → Option String
  | .text t => some t
  | .tool_use _ _ _ => none

/-- A model response: `content` list plus `stop_reason`. -/
structure ModelResponse where
  content : List ContentBlock
  stop_reason : String
deriving Repr, DecidableEq

/-- The `content` value of a transcript message: the initial user query is
a plain string, an assistant turn is a list of content blocks
(line 128), a tool-results turn is a list of tool-result dicts
(line 148). -/
inductive MessageContent where
  | str (s : String)
  | blocks (bs : List ContentBlock)
  | results (rs : List ToolResult)
deriving Repr, DecidableEq

/-- A transcript message: `role` and `content`. -/
structure Message where
  role : String
  content : MessageContent
deriving Repr, DecidableEq

/-- Tool schemas are passed through opaquely by the orchestrator (it never
inspects them), so we model a schema as an opaque token. -/
abbrev ToolSchema := String

/-- The request parameters assembled for `client.messages.create`
(lines 72-81 and 151-160).  `tools` and `tool_choice` are `none` exactly
when the corresponding dict keys are absent. -/
structure ApiParams where
  model : String
  temperature : Int
  max_tokens : Nat
  messages : List Message
  system : String
  tools : Option (List ToolSchema)
  tool_choice : Option String
deriving Repr, DecidableEq

/-- The language-model endpoint: given the index of the invocation (0 for
the initial request) and the request parameters, produce a response.
Quantifying over `Client` quantifies over every possible sequence of model
behaviours. -/
abbrev Client := Nat → ApiParams → ModelResponse

/-- `tool_manager.execute_tool(name, **input)`: returns the tool result
string (which may be error text; the Python code never inspects it). -/
abbrev ToolManager := String → List (String × String) → String

/-- Record of one executed tool call (name, input, invocation id). -/
structure ToolCall where
  name : String
  input : List (String × String)
  id : String
deriving Repr, DecidableEq

/-- The `AIGenerator` constructor state: the model name given at
construction (`__init__`, lines 36-45).  `base_params` is derived from it
below. -/
structure AIGenerator where
  model : String
deriving Repr, DecidableEq

/-- The static system prompt (`AIGenerator.SYSTEM_PROMPT`, lines 8-34). -/
def SYSTEM_PROMPT : String :=
  " You are an AI assistant specialized in course materials and educational content with access to tools for course information.\n\nTool Usage:\n- **search_course_content**: Use for questions about specific course content or detailed educational materials\n- **get_course_outline**: Use for questions about course structure, syllabus, lesson list, or what topics a course covers\n- **Sequential tool calls**: You may use tools sequentially if one tool\x27s results inform the next\n  - Example: get_course_outline to identify lessons, then search_course_content for specific content\n  - Use judiciously - simple queries need only one tool call\n- Synthesize tool results into accurate, fact-based responses\n- If tool yields no results, state this clearly without offering alternatives\n\nResponse Protocol:\n- **General knowledge questions**: Answer using existing knowledge without using tools\n- **Course outline questions** (e.g., \"What lessons are in X?\", \"Show me the course structure\", \"What does the course cover?\"): Use get_course_outline tool, then present course title, course link, and complete lesson list with lesson numbers and titles\n- **Course content questions** (e.g., \"Explain X from lesson Y\", \"What does the course say about Z?\"): Use search_course_content tool\n- **No meta-commentary**:\n - Provide direct answers only — no reasoning process, tool usage explanations, or question-type analysis\n - Do not mention \"based on the search results\" or \"using the tool\"\n\n\nAll responses must be:\n1. **Brief, Concise and focused** - Get to the point quickly\n2. **Educational** - Maintain instructional value\n3. **Clear** - Use accessible language\n4. **Example-supported** - Include relevant examples when they aid understanding\nProvide only the direct answer to what was asked.\n"

/-- Pre-built base API parameters (`self.base_params`, lines 41-45). -/
def AIGenerator.base_model (g : AIGenerator) : String := g.model

/-- The `system` content: the static prompt, with the previous conversation
appended when `conversation_history` is truthy (a non-`None`, non-empty
string) — lines 65-69. -/
def systemContent (conversation_history : Option String) : String :=
  match conversation_history with
  | some h => if h = "" then SYSTEM_PROMPT
              else SYSTEM_PROMPT ++ "\n\nPrevious conversation:\n" ++ h
  | none => SYSTEM_PROMPT

/-- Python truthiness of the optional `tools` list: `if tools:` is true
only for a present, non-empty list (line 79). -/
def listTruthy (tools : Option (List ToolSchema)) : Bool :=
  match tools with
  | some ts => !ts.isEmpty
  | none => false

/-- The initial request parameters assembled by `generate_response`
(lines 72-81): base params, single user message carrying the query, system
content, and — only when `tools` is truthy — the tools list and
`tool_choice` set to automatic. -/
def initialApiParams (g : AIGenerator) (query : String)
    (conversation_history : Option String) (tools : Option (List ToolSchema)) :
    ApiParams :=
  { model := g.model
    temperature := 0
    max_tokens := 800
    messages := [⟨"user", MessageContent.str query⟩]
    system := systemContent conversation_history
    tools := if listTruthy tools then tools else none
    tool_choice := if listTruthy tools then some "auto" else none }

/-- The tool-execution pass over one response's content (lines 131-144):
for each content block of type `tool_use`, in order, execute it via the
tool manager and collect a tool-result entry keyed to the block's id. -/
def roundToolResults (tm : ToolManager) : List ContentBlock → List ToolResult
  | [] => []
  | ContentBlock.text _ :: rest => roundToolResults tm rest
  | ContentBlock.tool_use name input id :: rest =>
      { type := "tool_result", tool_use_id := id, content := tm name input }
        :: roundToolResults tm rest

/-- The tool calls requested by a response's content, in order: the
tool-use blocks, as (name, input, id) records. -/
def toolCallsOf : List ContentBlock → List ToolCall
  | [] => []
  | ContentBlock.text _ :: rest => toolCallsOf rest
  | ContentBlock.tool_use name input id :: rest =>
      ⟨name, input, id⟩ :: toolCallsOf rest

/-- Transcript growth in one round (lines 127-148): append the assistant's
tool-use response content, then — only when any tool results were
collected — append all of them as one single user message. -/
def appendRoundMessages (messages : List Message) (content : List ContentBlock)
    (tool_results : List ToolResult) : List Message :=
  let m1 := messages ++ [⟨"assistant", MessageContent.blocks content⟩]
  if tool_results.isEmpty then m1
  else m1 ++ [⟨"user", MessageContent.results tool_results⟩]

/-- The follow-up request parameters (lines 151-160): base params, the
grown transcript, the system content of the initial request, and — exactly
when the initial request carried a `tools` key — the same tools list with
`tool_choice` automatic. -/
def followUpParams (g : AIGenerator) (base : ApiParams)
    (messages : List Message) : ApiParams :=
  { model := g.model
    temperature := 0
    max_tokens := 800
    messages := messages
    system := base.system
    tools := base.tools
    tool_choice := if base.tools.isSome then some "auto" else none }

/-- Instrumented outcome of a round loop: the final model response, the
follow-up requests issued (in order) and the tool batches executed (in
order). -/
structure LoopResult where
  final : ModelResponse
  apiCalls : List ApiParams
  toolBatches : List (List ToolCall)
deriving Repr

/-- The `while round_count < MAX_ROUNDS` loop of `_handle_tool_execution`
(lines 123-169), as recursion on the number of remaining rounds.  Each
iteration executes the current response's tool calls, grows the
transcript, issues the follow-up request, and stops early when the new
response's stop reason is not `tool_use`. -/
def toolLoop (g : AIGenerator) (client : Client) (tm : ToolManager)
    (base : ApiParams) :
    Nat → Nat → List Message → ModelResponse → LoopResult
  | 0, _, _, current => ⟨current, [], []⟩
  | remaining + 1, callIdx, messages, current =>
      let tool_results := roundToolResults tm current.content
      let batch := toolCallsOf current.content
      let messages2 := appendRoundMessages messages current.content tool_results
      let follow_up := followUpParams g base messages2
      let resp := client callIdx follow_up
      if resp.stop_reason ≠ "tool_use" then
        ⟨resp, [follow_up], [batch]⟩
      else
        let r := toolLoop g client tm base remaining (callIdx + 1) messages2 resp
        ⟨r.final, follow_up :: r.apiCalls, batch :: r.toolBatches⟩

/-- `MAX_ROUNDS` (line 118). -/
def MAX_ROUNDS : Nat := 2

/-- Instrumented outcome of `generate_response`: the returned string
(`none` models a Python exception from reading `content[0].text` when the
content list is empty or its first block is a tool-use block), all requests
issued, and all tool batches executed. -/
structure GenResult where
  result : Option String
  apiCalls : List ApiParams
  toolBatches : List (List ToolCall)
deriving Repr

/-- `response.content[0].text` (lines 91 and 175). -/
def firstBlockText (r : ModelResponse) : Option String :=
  r.content.head?.bind ContentBlock.getText

/-- `_handle_tool_execution` (lines 93-175): run the round loop starting
from the initial tool-use response with a copy of the initial messages,
then return the final response's first block text. -/
def handle_tool_execution (g : AIGenerator) (client : Client)
    (initial_response : ModelResponse) (base_params : ApiParams)
    (tm : ToolManager) : GenResult :=
  let r := toolLoop g client tm base_params MAX_ROUNDS 1
             base_params.messages initial_response
  ⟨firstBlockText r.final, r.apiCalls, r.toolBatches⟩

/-- `generate_response` (lines 47-91): build the initial request, invoke
the model, and either hand off to `_handle_tool_execution` (when the stop
reason is `tool_use` and a tool manager is present) or return the first
content block's text directly.  The instrumented result prepends the
initial request to the follow-up requests. -/
def generate_response (g : AIGenerator) (client : Client) (query : String)
    (conversation_history : Option String := none)
    (tools : Option (List ToolSchema) := none)
    (tool_manager : Option ToolManager := none) : GenResult :=
  let api_params := initialApiParams g query conversation_history tools
  let response := client 0 api_params
  if response.stop_reason = "tool_use" then
    match tool_manager with
    | some tm =>
        let h := handle_tool_execution g client response api_params tm
        ⟨h.result, api_params :: h.apiCalls, h.toolBatches⟩
    | none => ⟨firstBlockText response, [api_params], []⟩
  else
    ⟨firstBlockText response, [api_params], []⟩

namespace Search

/-- Modelled from the spec: `backend/search_tools.py` (class
`CourseSearchTool`) and `backend/vector_store.py` (class `VectorStore`,
method `search` and course-name resolution) are not present under the
source tree — only their tests are — so this namespace models them from
the specification, sections 4.1, 4.2 and 7, and from the vocabulary of
`tests/test_search_tool.py`.  The embedding similarity computation is an
explicit non-goal of the spec ("treated as an opaque capability"), so the
store carries the ranked-match and best-title-match functions as opaque
fields. -/
def MODELLED_FROM_SPEC : Prop := True

/-- A result set of the vector index (spec section 4.1): ordered
documents, parallel metadata (course title, lesson number) per document,
and an optional error string distinct from "empty but successful". -/
structure SearchResults where
  documents : List String
  metadata : List (String × Option Int)
  error : Option String
deriving Repr, DecidableEq

/-- The empty-result predicate of a result set. -/
def SearchResults.is_empty (r : SearchResults) : Bool := r.documents.isEmpty

/-- Modelled from the spec: the vector index.  `max_results` is a fixed
configuration value set at construction; `course_titles` is the stored
catalog of course titles; `best_title_match` is the opaque similarity
match over stored titles; `ranked` is the opaque embedding search (query,
resolved course filter, lesson filter, to ranked (course title, lesson
number, chunk text) matches). -/
structure VectorStore where
  max_results : Nat
  course_titles : List String
  best_title_match : String → String
  ranked : String → Option String → Option Int → List (String × Option Int × String)

/-- The distinct configuration-error message for a result cap of zero,
naming the offending `MAX_RESULTS` setting (spec sections 4.1 and 7; the
test asserts the result contains both "Configuration error" and
"MAX_RESULTS"). -/
def maxResultsConfigMsg : String :=
  "Configuration error: MAX_RESULTS is set to 0, so the search can return no results. Please set MAX_RESULTS to a positive value."

/-- The genuine "nothing found" message for an empty but successful match
(the test asserts successful results do not start with this text). -/
def noRelevantContentMsg : String := "No relevant content found."

/-- Modelled from the spec: course-name resolution (spec section 4.1) —
the nearest stored title is returned whenever the catalog is non-empty;
`NotFound` (here `none`) is signalled only when the catalog is empty. -/
def VectorStore.resolve_course_name (s : VectorStore) (name : String) :
    Option String :=
  if s.course_titles.isEmpty then none else some (s.best_title_match name)

/-- Modelled from the spec: `VectorStore.search` (spec section 4.1) —
a result cap of zero is a misconfiguration reported through the result
set's error slot; otherwise up to `max_results` best matches are returned
with no error. -/
def VectorStore.search (s : VectorStore) (query : String)
    (course : Option String) (lesson : Option Int) : SearchResults :=
  if s.max_results = 0 then
    { documents := [], metadata := [], error := some maxResultsConfigMsg }
  else
    let hits := (s.ranked query course lesson).take s.max_results
    { documents := hits.map (fun h => h.2.2)
      metadata := hits.map (fun h => (h.1, h.2.1))
      error := none }

/-- Formatting of matched chunks (spec section 4.2): each chunk as a
labeled block, a bracketed header with the course title and, when
present, the lesson number, followed by the chunk text. -/
def formatResults (r : SearchResults) : String :=
  String.intercalate "\n\n"
    ((r.documents.zip r.metadata).map (fun p =>
      "[" ++ p.2.1 ++
        (match p.2.2 with
         | some n => " - Lesson " ++ toString n
         | none => "") ++
      "]\n" ++ p.1))

/-- Modelled from the spec: `CourseSearchTool.execute` (spec section 4.2)
— resolve the optional course name against the catalog first; if
resolution fails, return a user-facing no-matching-course string and
perform no search; if the index reports the max-results
misconfiguration, return that distinct configuration-error string;
on an empty but successful match return the genuine nothing-found
message; otherwise format the matched chunks. -/
def execute (s : VectorStore) (query : String)
    (course_name : Option String := none)
    (lesson_number : Option Int := none) : String :=
  match course_name with
  | some name =>
      match s.resolve_course_name name with
      | none => "No course found matching \x27" ++ name ++ "\x27"
      | some title =>
          let results := s.search query (some title) lesson_number
          match results.error with
          | some e => e
          | none =>
              if results.is_empty then noRelevantContentMsg
              else formatResults results
  | none =>
      let results := s.search query none lesson_number
      match results.error with
      | some e => e
      | none =>
          if results.is_empty then noRelevantContentMsg
          else formatResults results

/-- A store with a result cap of zero and an empty catalog, used to
exercise the resolution-failure path. -/
def emptyCatalogZeroStore : VectorStore :=
  ⟨0, [], fun _ => "", fun _ _ _ => []⟩

/-- A store with a result cap of zero and a populated catalog, mirroring
the fixture of `TestMaxResultsZeroBug`. -/
def populatedZeroStore : VectorStore :=
  ⟨0, ["Introduction to Testing"], fun _ => "Introduction to Testing",
   fun _ _ _ =>
     [("Introduction to Testing", some 1,
       "Unit testing focuses on testing individual components in isolation.")]⟩

end Search

/-! Concrete fixtures used by the witness theorems, mirroring the mock
objects of `tests/test_ai_generator.py`. -/

/-- A generator constructed with the test model name. -/
def g0 : AIGenerator := ⟨"test-model"⟩

/-- A tool manager whose every execution succeeds. -/
def tm0 : ToolManager := fun _ _ => "Search results..."

/-- A tool manager whose every execution returns error text, mirroring
`test_handles_tool_execution_errors`. -/
def tmErr : ToolManager := fun _ _ => "Error: Search failed"

/-- A tool-use response: preamble text followed by one tool-use block. -/
def toolUseResp : ModelResponse :=
  ⟨[ContentBlock.text "I will search for that information.",
    ContentBlock.tool_use "search_course_content" [("query", "test")] "tool-err-1"],
   "tool_use"⟩

/-- A direct-answer response. -/
def endResp : ModelResponse := ⟨[ContentBlock.text "Final answer"], "end_turn"⟩

/-- A model that answers every request with a tool-use response. -/
def clientT : Client := fun _ _ => toolUseResp

/-- A model that answers every request directly. -/
def clientE : Client := fun _ _ => endResp

/-- A model that requests a tool on the first invocation and answers
directly on every later one. -/
def clientS : Client := fun n _ => if n = 0 then toolUseResp else endResp

/-- A response stream that always requests tools. -/
def streamTU : Nat → ModelResponse := fun _ => toolUseResp

/-! Helper lemmas about the round loop. -/

/-- Every request issued inside the round loop is a follow-up request
built by `followUpParams` over the base parameters. -/
lemma toolLoop_apiCalls_mem (g : AIGenerator) (client : Client) (tm : ToolManager)
    (base : ApiParams) :
    ∀ (n idx : Nat) (msgs : List Message) (cur : ModelResponse) (p : ApiParams),
      p ∈ (toolLoop g client tm base n idx msgs cur).apiCalls →
      ∃ m, p = followUpParams g base m := by
  intro n
  induction n with
  | zero =>
      intro idx msgs cur p hp
      simp [toolLoop] at hp
  | succ k ih =>
      intro idx msgs cur p hp
      rw [toolLoop] at hp
      split at hp
      · simp at hp
        exact ⟨_, hp⟩
      · simp at hp
        rcases hp with hp | hp
        · exact ⟨_, hp⟩
        · exact ih _ _ _ p hp

/-- The round loop issues at most `n` follow-up requests and executes at
most `n` tool batches when given `n` remaining rounds. -/
lemma toolLoop_len_le (g : AIGenerator) (client : Client) (tm : ToolManager)
    (base : ApiParams) :
    ∀ (n idx : Nat) (msgs : List Message) (cur : ModelResponse),
      (toolLoop g client tm base n idx msgs cur).apiCalls.length ≤ n ∧
      (toolLoop g client tm base n idx msgs cur).toolBatches.length ≤ n := by
  intro n
  induction n with
  | zero => intro idx msgs cur; simp [toolLoop]
  | succ k ih =>
      intro idx msgs cur
      rw [toolLoop]
      split
      · simp
      · constructor
        · simpa using Nat.succ_le_succ (ih (idx + 1) _ _).1
        · simpa using Nat.succ_le_succ (ih (idx + 1) _ _).2

/-- Against a model that always requests tools, the round loop runs its
full budget: exactly `n` follow-up requests and `n` tool batches. -/
lemma toolLoop_len_eq (g : AIGenerator) (client : Client) (tm : ToolManager)
    (base : ApiParams) (hall : ∀ k p, (client k p).stop_reason = "tool_use") :
    ∀ (n idx : Nat) (msgs : List Message) (cur : ModelResponse),
      (toolLoop g client tm base n idx msgs cur).apiCalls.length = n ∧
      (toolLoop g client tm base n idx msgs cur).toolBatches.length = n := by
  intro n
  induction n with
  | zero => intro idx msgs cur; simp [toolLoop]
  | succ k ih =>
      intro idx msgs cur
      rw [toolLoop]
      split
      · rename_i hcond
        exact absurd (hall _ _) hcond
      · constructor
        · simpa using (ih (idx + 1) _ _).1
        · simpa using (ih (idx + 1) _ _).2

/-- Against a response stream that always requests tools, the final
response of the round loop is the stream's response at the last invocation
index reached. -/
lemma toolLoop_final_stream (g : AIGenerator) (tm : ToolManager) (base : ApiParams)
    (stream : Nat → ModelResponse)
    (hall : ∀ k, (stream k).stop_reason = "tool_use") :
    ∀ (n idx : Nat) (msgs : List Message) (cur : ModelResponse),
      (toolLoop g (fun k _ => stream k) tm base (n + 1) idx msgs cur).final =
        stream (idx + n) := by
  intro n
  induction n with
  | zero =>
      intro idx msgs cur
      rw [toolLoop]
      split
      · simp
      · simp [toolLoop]
  | succ k ih =>
      intro idx msgs cur
      rw [toolLoop]
      split
      · rename_i hcond
        exact absurd (hall idx) hcond
      · have := ih (idx + 1)
          (appendRoundMessages msgs cur.content (roundToolResults tm cur.content)) (stream idx)
        simpa [Nat.add_assoc, Nat.add_comm, Nat.add_left_comm] using this

/-- With at least one remaining round, the loop's first follow-up request
carries the transcript grown from the current response, and its first tool
batch is exactly that response's tool calls. -/
lemma toolLoop_head (g : AIGenerator) (client : Client) (tm : ToolManager)
    (base : ApiParams) (n idx : Nat) (msgs : List Message) (cur : ModelResponse) :
    ∃ rest brest,
      (toolLoop g client tm base (n + 1) idx msgs cur).apiCalls =
        followUpParams g base
          (appendRoundMessages msgs cur.content (roundToolResults tm cur.content)) :: rest ∧
      (toolLoop g client tm base (n + 1) idx msgs cur).toolBatches =
        toolCallsOf cur.content :: brest := by
  rw [toolLoop]
  split
  · exact ⟨[], [], rfl, rfl⟩
  · exact ⟨_, _, rfl, rfl⟩

/-- The tool-execution pass produces exactly one tool-result entry per
requested tool call, in request order, each keyed to its call's id and
carrying that call's execution output. -/
lemma roundToolResults_eq_map (tm : ToolManager) (content : List ContentBlock) :
    roundToolResults tm content =
      (toolCallsOf content).map
        (fun c => ⟨"tool_result", c.id, tm c.name c.input⟩) := by
  induction content with
  | nil => rfl
  | cons b rest ih =>
      cases b with
      | text t => simpa [roundToolResults, toolCallsOf] using ih
      | tool_use name input id => simp [roundToolResults, toolCallsOf, ih]

/-- Every tool-use block of a response contributes a tool-result entry
with its id and its execution output. -/
lemma mem_roundToolResults (tm : ToolManager) (content : List ContentBlock)
    (name : String) (input : List (String × String)) (callId : String)
    (h : ContentBlock.tool_use name input callId ∈ content) :
    (⟨"tool_result", callId, tm name input⟩ : ToolResult) ∈ roundToolResults tm content := by
  induction content with
  | nil => simp at h
  | cons b rest ih =>
      rcases List.mem_cons.mp h with hb | hb
      · subst hb; simp [roundToolResults]
      · cases b with
        | text t => simpa [roundToolResults] using ih hb
        | tool_use n2 i2 id2 =>
            simp [roundToolResults]
            exact Or.inr (by simpa using ih hb)

/-- When a round produced any tool results, the transcript grows by the
assistant message followed by one single user message holding all of the
round's results. -/
lemma appendRoundMessages_ne_nil (messages : List Message) (content : List ContentBlock)
    (tool_results : List ToolResult) (h : tool_results ≠ []) :
    appendRoundMessages messages content tool_results =
      messages ++ [⟨"assistant", MessageContent.blocks content⟩,
                   ⟨"user", MessageContent.results tool_results⟩] := by
  cases tool_results with
  | nil => exact absurd rfl h
  | cons a l => simp [appendRoundMessages]

/-- An in-bounds `getD` access is a member of the list. -/
lemma getD_mem_of_lt {α : Type _} (l : List α) (n : Nat) (d : α) (h : n < l.length) :
    l.getD n d ∈ l := by
  induction l generalizing n with
  | nil => simp at h
  | cons a t ih =>
      cases n with
      | zero => simp [List.getD]
      | succ m =>
          have hm : m < t.length := by simpa using Nat.lt_of_succ_lt_succ h
          simpa [List.getD] using Or.inr (ih m hm)

/-! The claim theorems. -/

/-- C1: for every model that answers every request with stop reason
`tool_use`, one call to `generate_response` with tools and a tool manager
makes exactly 3 model invocations (the round cap plus one, the round cap
being fixed at 2) and exactly 2 batches of tool executions, never more. -/
theorem claim_C1 (g : AIGenerator) (client : Client) (query : String)
    (conversation_history : Option String) (tools : Option (List ToolSchema))
    (tm : ToolManager)
    (hall : ∀ k p, (client k p).stop_reason = "tool_use") :
    (generate_response g client query conversation_history tools (some tm)).apiCalls.length = 3 ∧
    (generate_response g client query conversation_history tools (some tm)).toolBatches.length = 2 := by
  have h0 := hall 0 (initialApiParams g query conversation_history tools)
  have hlen := toolLoop_len_eq g client tm (initialApiParams g query conversation_history tools)
    hall MAX_ROUNDS 1 (initialApiParams g query conversation_history tools).messages
    (client 0 (initialApiParams g query conversation_history tools))
  simp only [MAX_ROUNDS] at hlen
  simp [generate_response, handle_tool_execution, h0, MAX_ROUNDS, hlen.1, hlen.2]

/-- Witness for C1: the always-tool-use mock model yields 3 invocations
and 2 tool batches. -/
theorem claim_C1_witness :
    (generate_response g0 clientT "Test" none (some ["tool1"]) (some tm0)).apiCalls.length = 3 ∧
    (generate_response g0 clientT "Test" none (some ["tool1"]) (some tm0)).toolBatches.length = 2 :=
  claim_C1 g0 clientT "Test" none (some ["tool1"]) tm0 (fun _ _ => rfl)

/-- C2: for every query whose initial model request carried a (non-empty,
hence truthy) tools list, every model request of the run — the initial one
and every follow-up issued inside the tool-execution loop — carries that
same tools list and `tool_choice` set to automatic; tools are never
dropped between rounds. -/
theorem claim_C2 (g : AIGenerator) (client : Client) (query : String)
    (conversation_history : Option String) (ts : List ToolSchema) (tm : ToolManager)
    (hts : ts ≠ []) :
    ∀ p ∈ (generate_response g client query conversation_history (some ts) (some tm)).apiCalls,
      p.tools = some ts ∧ p.tool_choice = some "auto" := by
  intro p hp
  have hip : (initialApiParams g query conversation_history (some ts)).tools = some ts ∧
      (initialApiParams g query conversation_history (some ts)).tool_choice = some "auto" := by
    simp [initialApiParams, listTruthy, hts]
  by_cases hstop :
    (client 0 (initialApiParams g query conversation_history (some ts))).stop_reason = "tool_use"
  · simp [generate_response, hstop, handle_tool_execution] at hp
    rcases hp with hp | hp
    · subst hp; exact hip
    · obtain ⟨m, rfl⟩ := toolLoop_apiCalls_mem g client _ _ _ _ _ _ p hp
      simp [followUpParams, hip.1]
  · simp [generate_response, hstop] at hp
    subst hp; exact hip

/-- Witness for C2: in a concrete two-invocation run the follow-up request
still carries the tools list and automatic tool choice. -/
theorem claim_C2_witness :
    ((generate_response g0 clientS "q" none (some ["t1"]) (some tm0)).apiCalls.getD 1
        (initialApiParams g0 "q" none none)).tools = some ["t1"] ∧
    ((generate_response g0 clientS "q" none (some ["t1"]) (some tm0)).apiCalls.getD 1
        (initialApiParams g0 "q" none none)).tool_choice = some "auto" :=
  claim_C2 g0 clientS "q" none ["t1"] tm0 (by decide) _
    (getD_mem_of_lt _ 1 _ (by decide))

/-- C3: for every sequence of model responses whatsoever,
`generate_response` terminates (it is a total function), performing at
most 3 model invocations and at most 2 tool-execution batches per query. -/
theorem claim_C3 (g : AIGenerator) (client : Client) (query : String)
    (conversation_history : Option String) (tools : Option (List ToolSchema))
    (tool_manager : Option ToolManager) :
    (generate_response g client query conversation_history tools tool_manager).apiCalls.length ≤ 3 ∧
    (generate_response g client query conversation_history tools tool_manager).toolBatches.length ≤ 2 := by
  by_cases hstop :
    (client 0 (initialApiParams g query conversation_history tools)).stop_reason = "tool_use"
  · cases tool_manager with
    | none => simp [generate_response, hstop]
    | some tm =>
        have hle := toolLoop_len_le g client tm (initialApiParams g query conversation_history tools)
          MAX_ROUNDS 1 (initialApiParams g query conversation_history tools).messages
          (client 0 (initialApiParams g query conversation_history tools))
        simp only [MAX_ROUNDS] at hle
        constructor
        · simp [generate_response, hstop, handle_tool_execution, MAX_ROUNDS]
          omega
        · simp [generate_response, hstop, handle_tool_execution, MAX_ROUNDS]
          omega
  · simp [generate_response, hstop]

/-- C4: in every round, the loop executes exactly the tool-use blocks of
the model's response, in the order they appear in the response content,
producing one tool-result entry per call keyed to that call's invocation
id and carrying its execution output, and appends all of a round's results
to the transcript as one single user-role message; in a run that enters
tool execution, the first follow-up request's transcript is exactly the
initial messages grown this way. -/
theorem claim_C4 (g : AIGenerator) (client : Client) (query : String)
    (conversation_history : Option String) (tools : Option (List ToolSchema))
    (tm : ToolManager) (content : List ContentBlock) (messages : List Message)
    (h1 : (client 0 (initialApiParams g query conversation_history tools)).stop_reason =
            "tool_use") :
    roundToolResults tm content =
      (toolCallsOf content).map (fun c => ⟨"tool_result", c.id, tm c.name c.input⟩) ∧
    (roundToolResults tm content).map ToolResult.tool_use_id =
      (toolCallsOf content).map ToolCall.id ∧
    (roundToolResults tm content ≠ [] →
      appendRoundMessages messages content (roundToolResults tm content) =
        messages ++ [⟨"assistant", MessageContent.blocks content⟩,
                     ⟨"user", MessageContent.results (roundToolResults tm content)⟩]) ∧
    (∃ p prest,
      (generate_response g client query conversation_history tools (some tm)).apiCalls =
        initialApiParams g query conversation_history tools :: p :: prest ∧
      p.messages =
        appendRoundMessages (initialApiParams g query conversation_history tools).messages
          (client 0 (initialApiParams g query conversation_history tools)).content
          (roundToolResults tm
            (client 0 (initialApiParams g query conversation_history tools)).content) ∧
      (generate_response g client query conversation_history tools (some tm)).toolBatches.head? =
        some (toolCallsOf
          (client 0 (initialApiParams g query conversation_history tools)).content)) := by
  refine ⟨roundToolResults_eq_map tm content, ?_, ?_, ?_⟩
  · rw [roundToolResults_eq_map]
    simp [List.map_map, Function.comp]
  · intro hne
    exact appendRoundMessages_ne_nil messages content _ hne
  · obtain ⟨lrest, brest, ha, hb⟩ := toolLoop_head g client tm
      (initialApiParams g query conversation_history tools) 1 1
      (initialApiParams g query conversation_history tools).messages
      (client 0 (initialApiParams g query conversation_history tools))
    refine ⟨followUpParams g (initialApiParams g query conversation_history tools)
      (appendRoundMessages (initialApiParams g query conversation_history tools).messages
        (client 0 (initialApiParams g query conversation_history tools)).content
        (roundToolResults tm
          (client 0 (initialApiParams g query conversation_history tools)).content)),
      lrest, ?_, rfl, ?_⟩
    · simp [generate_response, h1, handle_tool_execution,
        show MAX_ROUNDS = 1 + 1 from rfl, ha]
    · simp [generate_response, h1, handle_tool_execution,
        show MAX_ROUNDS = 1 + 1 from rfl, hb]

/-- Witness for C4, at the mock tool-use response and an error-returning
tool manager. -/
theorem claim_C4_witness :
    roundToolResults tmErr toolUseResp.content =
      (toolCallsOf toolUseResp.content).map
        (fun c => ⟨"tool_result", c.id, tmErr c.name c.input⟩) ∧
    (roundToolResults tmErr toolUseResp.content).map ToolResult.tool_use_id =
      (toolCallsOf toolUseResp.content).map ToolCall.id ∧
    (roundToolResults tmErr toolUseResp.content ≠ [] →
      appendRoundMessages [⟨"user", MessageContent.str "Test query"⟩] toolUseResp.content
          (roundToolResults tmErr toolUseResp.content) =
        [⟨"user", MessageContent.str "Test query"⟩] ++
          [⟨"assistant", MessageContent.blocks toolUseResp.content⟩,
           ⟨"user", MessageContent.results (roundToolResults tmErr toolUseResp.content)⟩]) ∧
    (∃ p prest,
      (generate_response g0 clientS "Test query" none (some ["t1"]) (some tmErr)).apiCalls =
        initialApiParams g0 "Test query" none (some ["t1"]) :: p :: prest ∧
      p.messages =
        appendRoundMessages (initialApiParams g0 "Test query" none (some ["t1"])).messages
          (clientS 0 (initialApiParams g0 "Test query" none (some ["t1"]))).content
          (roundToolResults tmErr
            (clientS 0 (initialApiParams g0 "Test query" none (some ["t1"]))).content) ∧
      (generate_response g0 clientS "Test query" none (some ["t1"]) (some tmErr)).toolBatches.head? =
        some (toolCallsOf
          (clientS 0 (initialApiParams g0 "Test query" none (some ["t1"]))).content)) :=
  claim_C4 g0 clientS "Test query" none (some ["t1"]) tmErr toolUseResp.content
    [⟨"user", MessageContent.str "Test query"⟩] rfl

/-- C5: if the model's first response has a stop reason other than
`tool_use`, `generate_response` performs exactly one model invocation,
executes no tools, and immediately returns the text of that response's
first content block. -/
theorem claim_C5 (g : AIGenerator) (client : Client) (query : String)
    (conversation_history : Option String) (tools : Option (List ToolSchema))
    (tool_manager : Option ToolManager) (t : String) (rest : List ContentBlock)
    (h1 : (client 0 (initialApiParams g query conversation_history tools)).stop_reason ≠
            "tool_use")
    (h2 : (client 0 (initialApiParams g query conversation_history tools)).content =
            ContentBlock.text t :: rest) :
    (generate_response g client query conversation_history tools tool_manager).apiCalls =
      [initialApiParams g query conversation_history tools] ∧
    (generate_response g client query conversation_history tools tool_manager).toolBatches = [] ∧
    (generate_response g client query conversation_history tools tool_manager).result = some t := by
  simp [generate_response, h1, firstBlockText, h2, ContentBlock.getText]

/-- Witness for C5: a direct-answer model yields one invocation, no tool
batches and the first block's text. -/
theorem claim_C5_witness :
    (generate_response g0 clientE "What is Python?" none none none).apiCalls =
      [initialApiParams g0 "What is Python?" none none] ∧
    (generate_response g0 clientE "What is Python?" none none none).toolBatches = [] ∧
    (generate_response g0 clientE "What is Python?" none none none).result = some "Final answer" :=
  claim_C5 g0 clientE "What is Python?" none none none "Final answer" [] (by decide) rfl

/-- C6: for every tool call of the first response, the string returned by
its execution — error text included, since the tool manager's output is
never inspected — is placed verbatim in that call's tool-result entry,
the round's results are fed back to the model inside the follow-up
request's transcript, and the orchestration loop continues (a follow-up
invocation occurs) rather than aborting. -/
theorem claim_C6 (g : AIGenerator) (client : Client) (query : String)
    (conversation_history : Option String) (tools : Option (List ToolSchema))
    (tm : ToolManager) (name : String) (input : List (String × String)) (callId : String)
    (h1 : (client 0 (initialApiParams g query conversation_history tools)).stop_reason =
            "tool_use")
    (h2 : ContentBlock.tool_use name input callId ∈
            (client 0 (initialApiParams g query conversation_history tools)).content) :
    2 ≤ (generate_response g client query conversation_history tools (some tm)).apiCalls.length ∧
    (⟨"tool_result", callId, tm name input⟩ : ToolResult) ∈
      roundToolResults tm
        (client 0 (initialApiParams g query conversation_history tools)).content ∧
    (∃ p prest,
      (generate_response g client query conversation_history tools (some tm)).apiCalls =
        initialApiParams g query conversation_history tools :: p :: prest ∧
      (⟨"user", MessageContent.results (roundToolResults tm
          (client 0 (initialApiParams g query conversation_history tools)).content)⟩ : Message) ∈
        p.messages) := by
  have hmem := mem_roundToolResults tm _ name input callId h2
  have hne : roundToolResults tm
      (client 0 (initialApiParams g query conversation_history tools)).content ≠ [] :=
    List.ne_nil_of_mem hmem
  obtain ⟨lrest, brest, ha, hb⟩ := toolLoop_head g client tm
    (initialApiParams g query conversation_history tools) 1 1
    (initialApiParams g query conversation_history tools).messages
    (client 0 (initialApiParams g query conversation_history tools))
  refine ⟨?_, hmem, ?_⟩
  · simp [generate_response, h1, handle_tool_execution,
      show MAX_ROUNDS = 1 + 1 from rfl, ha]
  · refine ⟨followUpParams g (initialApiParams g query conversation_history tools)
      (appendRoundMessages (initialApiParams g query conversation_history tools).messages
        (client 0 (initialApiParams g query conversation_history tools)).content
        (roundToolResults tm
          (client 0 (initialApiParams g query conversation_history tools)).content)),
      lrest, ?_, ?_⟩
    · simp [generate_response, h1, handle_tool_execution,
        show MAX_ROUNDS = 1 + 1 from rfl, ha]
    · rw [followUpParams]
      rw [appendRoundMessages_ne_nil _ _ _ hne]
      simp

/-- Witness for C6: a tool manager returning error text still yields a
follow-up invocation carrying the error text in the round's results. -/
theorem claim_C6_witness :
    2 ≤ (generate_response g0 clientS "Test query" none (some ["t1"]) (some tmErr)).apiCalls.length ∧
    (⟨"tool_result", "tool-err-1", "Error: Search failed"⟩ : ToolResult) ∈
      roundToolResults tmErr
        (clientS 0 (initialApiParams g0 "Test query" none (some ["t1"]))).content ∧
    (∃ p prest,
      (generate_response g0 clientS "Test query" none (some ["t1"]) (some tmErr)).apiCalls =
        initialApiParams g0 "Test query" none (some ["t1"]) :: p :: prest ∧
      (⟨"user", MessageContent.results (roundToolResults tmErr
          (clientS 0 (initialApiParams g0 "Test query" none (some ["t1"]))).content)⟩ : Message) ∈
        p.messages) :=
  claim_C6 g0 clientS "Test query" none (some ["t1"]) tmErr "search_course_content"
    [("query", "test")] "tool-err-1" rfl (by decide)

/-- C7: when the round cap is reached while the model's last response
still has stop reason `tool_use` (modelled by a response stream that
always requests tools), `generate_response` returns the text of the first
content block of that last response — possibly empty or partial preamble
accompanying an unfulfilled tool request — after exactly 3 invocations,
rather than looping or raising. -/
theorem claim_C7 (g : AIGenerator) (query : String) (conversation_history : Option String)
    (tools : Option (List ToolSchema)) (tm : ToolManager) (stream : Nat → ModelResponse)
    (hall : ∀ n, (stream n).stop_reason = "tool_use")
    (t : String) (rest : List ContentBlock)
    (h2 : (stream 2).content = ContentBlock.text t :: rest) :
    (generate_response g (fun n _ => stream n) query conversation_history tools (some tm)).result =
      some t ∧
    (generate_response g (fun n _ => stream n) query conversation_history tools
        (some tm)).apiCalls.length = 3 := by
  have hall2 : ∀ (k : Nat) (p : ApiParams), (stream k).stop_reason = "tool_use" :=
    fun k _ => hall k
  have hfin := toolLoop_final_stream g tm (initialApiParams g query conversation_history tools)
    stream hall 1 1 (initialApiParams g query conversation_history tools).messages (stream 0)
  have hlen := toolLoop_len_eq g (fun n _ => stream n) tm
    (initialApiParams g query conversation_history tools) hall2 MAX_ROUNDS 1
    (initialApiParams g query conversation_history tools).messages (stream 0)
  simp only [MAX_ROUNDS] at hlen
  norm_num at hfin
  constructor
  · simp [generate_response, hall 0, handle_tool_execution,
      show MAX_ROUNDS = 1 + 1 from rfl, hfin, firstBlockText, h2, ContentBlock.getText]
  · simp [generate_response, hall 0, handle_tool_execution, MAX_ROUNDS, hlen.1]

/-- Witness for C7: the always-tool-use stream returns its preamble text
after 3 invocations. -/
theorem claim_C7_witness :
    (generate_response g0 (fun n _ => streamTU n) "Test" none (some ["t1"]) (some tm0)).result =
      some "I will search for that information." ∧
    (generate_response g0 (fun n _ => streamTU n) "Test" none (some ["t1"])
        (some tm0)).apiCalls.length = 3 :=
  claim_C7 g0 "Test" none (some ["t1"]) tm0 streamTU (fun _ => rfl)
    "I will search for that information."
    [ContentBlock.tool_use "search_course_content" [("query", "test")] "tool-err-1"] rfl

/-- C9: every model invocation made by a generator — the initial request
and every follow-up round — uses the same fixed request parameters from
`base_params`: the model name given at construction, temperature 0 and
`max_tokens` 800. -/
theorem claim_C9 (g : AIGenerator) (client : Client) (query : String)
    (conversation_history : Option String) (tools : Option (List ToolSchema))
    (tool_manager : Option ToolManager) :
    ∀ p ∈ (generate_response g client query conversation_history tools tool_manager).apiCalls,
      p.model = g.model ∧ p.temperature = 0 ∧ p.max_tokens = 800 := by
  intro p hp
  have hip : (initialApiParams g query conversation_history tools).model = g.model ∧
      (initialApiParams g query conversation_history tools).temperature = 0 ∧
      (initialApiParams g query conversation_history tools).max_tokens = 800 := by
    simp [initialApiParams]
  by_cases hstop :
    (client 0 (initialApiParams g query conversation_history tools)).stop_reason = "tool_use"
  · cases tool_manager with
    | none =>
        simp [generate_response, hstop] at hp
        subst hp; exact hip
    | some tm =>
        simp [generate_response, hstop, handle_tool_execution] at hp
        rcases hp with hp | hp
        · subst hp; exact hip
        · obtain ⟨m, rfl⟩ := toolLoop_apiCalls_mem g client _ _ _ _ _ _ p hp
          simp [followUpParams]
  · simp [generate_response, hstop] at hp
    subst hp; exact hip

/-- Witness for C9: the follow-up request of a concrete run carries the
construction-time model name, temperature 0 and max tokens 800. -/
theorem claim_C9_witness :
    ((generate_response g0 clientS "q" none (some ["t1"]) (some tm0)).apiCalls.getD 1
        (initialApiParams g0 "q" none none)).model = g0.model ∧
    ((generate_response g0 clientS "q" none (some ["t1"]) (some tm0)).apiCalls.getD 1
        (initialApiParams g0 "q" none none)).temperature = 0 ∧
    ((generate_response g0 clientS "q" none (some ["t1"]) (some tm0)).apiCalls.getD 1
        (initialApiParams g0 "q" none none)).max_tokens = 800 :=
  claim_C9 g0 clientS "q" none (some ["t1"]) (some tm0) _
    (getD_mem_of_lt _ 1 _ (by decide))

/-- C10: `generate_response` enters tool execution (executes at least one
batch) exactly when the first response's stop reason is `tool_use` and a
tool manager is present; with no tool manager it performs exactly one
invocation, executes no tools and returns the first content block's text
even when the model requested a tool; the characterization holds for every
`tools` argument, including none. -/
theorem claim_C10 (g : AIGenerator) (client : Client) (query : String)
    (conversation_history : Option String) (tools : Option (List ToolSchema))
    (tool_manager : Option ToolManager) :
    ((generate_response g client query conversation_history tools tool_manager).toolBatches ≠ [] ↔
      ((client 0 (initialApiParams g query conversation_history tools)).stop_reason = "tool_use" ∧
        tool_manager.isSome = true)) ∧
    (tool_manager = none →
      (generate_response g client query conversation_history tools tool_manager).apiCalls =
        [initialApiParams g query conversation_history tools] ∧
      (generate_response g client query conversation_history tools tool_manager).toolBatches = [] ∧
      (generate_response g client query conversation_history tools tool_manager).result =
        firstBlockText (client 0 (initialApiParams g query conversation_history tools))) := by
  constructor
  · constructor
    · intro hne
      by_cases hstop :
        (client 0 (initialApiParams g query conversation_history tools)).stop_reason = "tool_use"
      · refine ⟨hstop, ?_⟩
        cases tool_manager with
        | none => exfalso; apply hne; simp [generate_response, hstop]
        | some tm => rfl
      · exfalso; apply hne; simp [generate_response, hstop]
    · rintro ⟨hstop, hsome⟩
      cases tool_manager with
      | none => simp at hsome
      | some tm =>
          obtain ⟨rest, brest, -, hb⟩ := toolLoop_head g client tm
            (initialApiParams g query conversation_history tools) 1 1
            (initialApiParams g query conversation_history tools).messages
            (client 0 (initialApiParams g query conversation_history tools))
          simp [generate_response, hstop, handle_tool_execution,
            show MAX_ROUNDS = 1 + 1 from rfl, hb]
  · rintro rfl
    by_cases hstop :
      (client 0 (initialApiParams g query conversation_history tools)).stop_reason = "tool_use"
    · simp [generate_response, hstop]
    · simp [generate_response, hstop]

/-- Witness for C10: with a manager, the always-tool-use model enters tool
execution; without a manager, the same model yields one invocation, no
batches and the preamble text. -/
theorem claim_C10_witness :
    (generate_response g0 clientT "q" none (some ["t1"]) (some tm0)).toolBatches ≠ [] ∧
    ((generate_response g0 clientT "q" none (some ["t1"]) none).apiCalls =
      [initialApiParams g0 "q" none (some ["t1"])] ∧
    (generate_response g0 clientT "q" none (some ["t1"]) none).toolBatches = [] ∧
    (generate_response g0 clientT "q" none (some ["t1"]) none).result =
      firstBlockText (clientT 0 (initialApiParams g0 "q" none (some ["t1"])))) :=
  ⟨((claim_C10 g0 clientT "q" none (some ["t1"]) (some tm0)).1).mpr ⟨rfl, rfl⟩,
   (claim_C10 g0 clientT "q" none (some ["t1"]) none).2 rfl⟩

/-- C8 (amended): for every content-search execution against an index
constructed with a result cap of zero, whenever the course filter (if
present) can resolve — that is, the filter is absent or the catalog is
non-empty — the tool returns the distinct configuration-error message
naming the `MAX_RESULTS` setting, which differs in content from the
genuine nothing-found message produced by an empty match.  (The
unamended universal claim fails on the resolution-failure path; see the
counterexample.) -/
theorem claim_C8 (s : Search.VectorStore) (query : String)
    (course_name : Option String) (lesson_number : Option Int)
    (hz : s.max_results = 0)
    (hres : course_name = none ∨ s.course_titles ≠ []) :
    Search.execute s query course_name lesson_number = Search.maxResultsConfigMsg ∧
    (∃ pre post, Search.maxResultsConfigMsg = pre ++ "MAX_RESULTS" ++ post) ∧
    Search.maxResultsConfigMsg ≠ Search.noRelevantContentMsg := by
  refine ⟨?_, ⟨"Configuration error: ",
    " is set to 0, so the search can return no results. Please set MAX_RESULTS to a positive value.",
    rfl⟩, by decide⟩
  cases course_name with
  | none => simp [Search.execute, Search.VectorStore.search, hz]
  | some name =>
      rcases hres with h | h
      · exact absurd h (by simp)
      · have : s.course_titles.isEmpty = false := by
          simpa [List.isEmpty_iff] using h
        simp [Search.execute, Search.VectorStore.resolve_course_name, this,
          Search.VectorStore.search, hz]

/-- Counterexample to C8 as stated: a content-search execution against an
index with a result cap of zero whose course filter fails to resolve
(empty catalog) returns the no-matching-course message, not the
configuration-error message. -/
theorem claim_C8_counterexample :
    Search.execute Search.emptyCatalogZeroStore "testing" (some "NonExistent Course") none ≠
      Search.maxResultsConfigMsg ∧
    Search.execute Search.emptyCatalogZeroStore "testing" (some "NonExistent Course") none =
      "No course found matching \x27NonExistent Course\x27" := by
  constructor
  · decide
  · rfl

/-- Witness for C8: the populated zero-cap store of the test fixture
yields the configuration-error message. -/
theorem claim_C8_witness :
    Search.execute Search.populatedZeroStore "testing" none none =
      Search.maxResultsConfigMsg ∧
    (∃ pre post, Search.maxResultsConfigMsg = pre ++ "MAX_RESULTS" ++ post) ∧
    Search.maxResultsConfigMsg ≠ Search.noRelevantContentMsg :=
  claim_C8 Search.populatedZeroStore "testing" none none rfl (Or.inl rfl)

end Rag
